import Mathlib

/-!
Verification of the Agora token-server core (index.js and the secondary
token endpoint) against its natural-language specification.

The embedding models the three request handlers of index.js
(generateRTCToken, generateRTMToken, generateRTEToken) and the /rtcToken
handler of the secondary source file as pure functions from the process
environment, the request parameters and the current wall-clock second to a
pair (list of Signer invocations made, HTTP response).  JavaScript numbers
that can be NaN (the privilege expire time, after parseInt) are modelled as
Option Int with none standing for NaN; JavaScript falsiness of a possibly
undefined string is modelled on Option String.
-/

/-- A possibly-undefined JavaScript string value: none is undefined. -/
abbrev JsStr := Option String

/-- JavaScript falsiness for a possibly-undefined string: undefined and the
empty string are falsy, every other string is truthy. -/
def jsFalsy : JsStr → Bool
  | none => true
  | some s => s = ""

/-- Process-wide signing credential, read from the environment at startup. -/
structure Env where
  appId : JsStr
  appCertificate : JsStr
deriving DecidableEq

/-- Route parameters of the /rtc and /rte routes of index.js. -/
structure Params where
  channel : JsStr
  role : JsStr
  tokentype : JsStr
  uid : JsStr
deriving DecidableEq

/-- The internal role constants of the agora-access-token library that the
server passes to the builders: RtcRole.PUBLISHER, RtcRole.SUBSCRIBER and
RtmRole.Rtm_User. -/
inductive Role
  | publisher
  | subscriber
  | rtmUser
deriving DecidableEq

/-- A JavaScript value that is either a string or a number (the secondary
endpoint defaults a missing uid query value to the number 0). -/
inductive JsVal
  | str (s : String)
  | num (n : Int)
deriving DecidableEq

/-- One invocation of an external Signer entry point, with the exact
arguments the server passes.  The privilege expire time is Option Int,
none standing for NaN. -/
inductive SignCall
  | rtcUid (appId appCert : JsStr) (channel : String) (uid : JsVal)
      (role : Role) (privilegeExpireTime : Option Int)
  | rtcAccount (appId appCert : JsStr) (channel account : String)
      (role : Role) (privilegeExpireTime : Option Int)
  | rtm (appId appCert : JsStr) (uid : String)
      (role : Role) (privilegeExpireTime : Option Int)
deriving DecidableEq

/-- The role argument of a Signer invocation. -/
def SignCall.roleOf : SignCall → Role
  | .rtcUid _ _ _ _ r _ => r
  | .rtcAccount _ _ _ _ r _ => r
  | .rtm _ _ _ r _ => r

/-- The privilege-expire-time argument of a Signer invocation. -/
def SignCall.petOf : SignCall → Option Int
  | .rtcUid _ _ _ _ _ p => p
  | .rtcAccount _ _ _ _ _ p => p
  | .rtm _ _ _ _ p => p

/-- The HTTP response produced by a handler.  Token artifacts are opaque
outputs of the external Signer, so a successful response carries the
Signer invocation that produced each artifact. -/
inductive Response
  | error (status : Nat) (msg : String)
  | rtcJson (token : SignCall)
  | rtmJson (token : SignCall)
  | rteJson (rtcToken rtmToken : SignCall)
  | tokenJson (token : SignCall)
deriving DecidableEq

/-- True exactly on a 500-status error response (server-side error). -/
def Response.isServerError : Response → Bool
  | .error 500 _ => true
  | _ => false

/-- What a handler did: the Signer invocations it made, in order, and the
response it returned. -/
structure HandlerOutput where
  calls : List SignCall
  response : Response
deriving DecidableEq

/-- Numeric value of a list of decimal digit characters. -/
def digitsVal (ds : List Char) : Nat :=
  ds.foldl (fun acc c => acc * 10 + (c.toNat - 48)) 0

/-- JavaScript parseInt(s, 10): skip leading whitespace, read an optional
sign and then the maximal run of leading decimal digits; if that run is
empty the result is NaN, modelled as none. -/
def parseIntJS (s : String) : Option Int :=
  let cs := s.data.dropWhile (fun c => c = ' ' || c = '\t' || c = '\n' || c = '\r')
  match cs with
  | [] => none
  | c :: rest =>
    if c = '-' then
      let ds := rest.takeWhile Char.isDigit
      if ds.isEmpty then none else some (-(digitsVal ds : Int))
    else if c = '+' then
      let ds := rest.takeWhile Char.isDigit
      if ds.isEmpty then none else some ((digitsVal ds : Int))
    else
      let ds := cs.takeWhile Char.isDigit
      if ds.isEmpty then none else some ((digitsVal ds : Int))

/-- The expire-time computation shared by the three index.js handlers:
if req.query.expiry is absent or the empty string the value is 3600,
otherwise it is parseInt(expiry, 10), which is NaN (none) when the string
has no leading integer. -/
def computeExpireTime (expiry : JsStr) : Option Int :=
  if jsFalsy expiry then some 3600 else parseIntJS (expiry.getD "")

/-- The media-role branch of generateRTCToken and generateRTEToken:
"publisher" resolves to RtcRole.PUBLISHER, "audience" to
RtcRole.SUBSCRIBER, anything else falls through to the error branch
(modelled as none). -/
def resolveMediaRole (r : JsStr) : Option Role :=
  if r = some "publisher" then some .publisher
  else if r = some "audience" then some .subscriber
  else none

/-- generateRTCToken of index.js: validates channel, uid, role and token
type in that order, computes the privilege expire time from now plus the
parsed expiry, and invokes exactly one of the two RTC Signer entry points
selected by tokentype. -/
def generateRTCToken (env : Env) (p : Params) (expiry : JsStr) (now : Int) :
    HandlerOutput :=
  if jsFalsy p.channel then ⟨[], .error 400 "channel is required"⟩
  else if jsFalsy p.uid then ⟨[], .error 400 "uid is required"⟩
  else
    match resolveMediaRole p.role with
    | none => ⟨[], .error 400 "role is incorrect"⟩
    | some role =>
      let privilegeExpireTime := (computeExpireTime expiry).map (fun t => now + t)
      if p.tokentype = some "userAccount" then
        let token := SignCall.rtcAccount env.appId env.appCertificate
          (p.channel.getD "") (p.uid.getD "") role privilegeExpireTime
        ⟨[token], .rtcJson token⟩
      else if p.tokentype = some "uid" then
        let token := SignCall.rtcUid env.appId env.appCertificate
          (p.channel.getD "") (.str (p.uid.getD "")) role privilegeExpireTime
        ⟨[token], .rtcJson token⟩
      else ⟨[], .error 400 "token type is invalid"⟩

/-- generateRTMToken of index.js: validates uid, fixes the role to
RtmRole.Rtm_User, and invokes the RTM Signer entry point. -/
def generateRTMToken (env : Env) (uid : JsStr) (expiry : JsStr) (now : Int) :
    HandlerOutput :=
  if jsFalsy uid then ⟨[], .error 400 "uid is required"⟩
  else
    let role := Role.rtmUser
    let privilegeExpireTime := (computeExpireTime expiry).map (fun t => now + t)
    let token := SignCall.rtm env.appId env.appCertificate (uid.getD "")
      role privilegeExpireTime
    ⟨[token], .rtmJson token⟩

/-- generateRTEToken of index.js: validates channel, uid and media role,
then invokes the sign-by-uid RTC entry point and the RTM entry point with
the same resolved media role and privilege expire time, ignoring the
tokentype route parameter entirely. -/
def generateRTEToken (env : Env) (p : Params) (expiry : JsStr) (now : Int) :
    HandlerOutput :=
  if jsFalsy p.channel then ⟨[], .error 400 "channel is required"⟩
  else if jsFalsy p.uid then ⟨[], .error 400 "uid is required"⟩
  else
    match resolveMediaRole p.role with
    | none => ⟨[], .error 400 "role is incorrect"⟩
    | some role =>
      let privilegeExpireTime := (computeExpireTime expiry).map (fun t => now + t)
      let rtcToken := SignCall.rtcUid env.appId env.appCertificate
        (p.channel.getD "") (.str (p.uid.getD "")) role privilegeExpireTime
      let rtmToken := SignCall.rtm env.appId env.appCertificate
        (p.uid.getD "") role privilegeExpireTime
      ⟨[rtcToken, rtmToken], .rteJson rtcToken rtmToken⟩

/-- Query parameters of the /rtcToken route of the secondary source file. -/
structure RtcTokenQuery where
  channelName : JsStr
  uid : JsStr
deriving DecidableEq

/-- The /rtcToken handler of the secondary source file: requires a truthy
channelName, defaults a falsy uid to the number 0, fixes the role to
RtcRole.PUBLISHER and the expire time to 3600 seconds, rejects with a 500
configuration error when either credential is falsy, and otherwise invokes
the sign-by-uid RTC entry point. -/
def rtcTokenHandler (env : Env) (q : RtcTokenQuery) (now : Int) :
    HandlerOutput :=
  if jsFalsy q.channelName then ⟨[], .error 400 "channelName is required"⟩
  else
    let uid : JsVal := if jsFalsy q.uid then .num 0 else .str (q.uid.getD "")
    let role := Role.publisher
    let expireTime : Int := 3600
    let privilegeExpiredTs := now + expireTime
    if jsFalsy env.appId || jsFalsy env.appCertificate then
      ⟨[], .error 500 "APP_ID or APP_CERTIFICATE missing"⟩
    else
      let token := SignCall.rtcUid env.appId env.appCertificate
        (q.channelName.getD "") uid role (some privilegeExpiredTs)
      ⟨[token], .tokenJson token⟩

/-- Spec-side description (section 4.4 step order and section 9) of the
first violated precondition of a media request, in the fixed order channel,
uid, role, token type; none when every precondition holds. -/
def specFirstMediaError (p : Params) : Option String :=
  if jsFalsy p.channel then some "channel is required"
  else if jsFalsy p.uid then some "uid is required"
  else if resolveMediaRole p.role = none then some "role is incorrect"
  else if p.tokentype = some "userAccount" ∨ p.tokentype = some "uid" then none
  else some "token type is invalid"

/-- Claim C4: combined-token composition fails atomically: whenever the
channel, subject or role validation of a combined request fails, the
handler returns a 400 error, makes no Signer call, and produces no
artifact. -/
theorem C4_combined_atomic (env : Env) (p : Params) (expiry : JsStr) (now : Int)
    (h : jsFalsy p.channel = true ∨ jsFalsy p.uid = true ∨
      resolveMediaRole p.role = none) :
    (generateRTEToken env p expiry now).calls = [] ∧
    ∃ msg, (generateRTEToken env p expiry now).response = .error 400 msg := by
  unfold generateRTEToken
  rcases h with h | h | h
  · simp [h]
  · by_cases hc : jsFalsy p.channel = true <;> simp [hc, h]
  · by_cases hc : jsFalsy p.channel = true
    · simp [hc]
    · by_cases hu : jsFalsy p.uid = true <;> simp [hc, hu, h]

theorem C4_combined_atomic_witness :
    (generateRTEToken ⟨some "id", some "cert"⟩
        ⟨some "room", some "moderator", some "uid", some "7"⟩ none 1000).calls = [] ∧
    ∃ msg, (generateRTEToken ⟨some "id", some "cert"⟩
        ⟨some "room", some "moderator", some "uid", some "7"⟩ none 1000).response =
      .error 400 msg :=
  C4_combined_atomic ⟨some "id", some "cert"⟩
    ⟨some "room", some "moderator", some "uid", some "7"⟩ none 1000
    (Or.inr (Or.inr (by decide)))

/-- Claim C5: for a valid media request, tokentype "userAccount" invokes
exactly the sign-by-account Signer entry point, tokentype "uid" invokes
exactly the sign-by-uid entry point, and any other tokentype fails with the
invalid-token-type error and no Signer call. -/
theorem C5_tokentype_selects_entry_point :
    (∀ env p expiry now r, jsFalsy p.channel = false → jsFalsy p.uid = false →
      resolveMediaRole p.role = some r → p.tokentype = some "userAccount" →
      (generateRTCToken env p expiry now).calls =
        [SignCall.rtcAccount env.appId env.appCertificate (p.channel.getD "")
          (p.uid.getD "") r ((computeExpireTime expiry).map (fun t => now + t))]) ∧
    (∀ env p expiry now r, jsFalsy p.channel = false → jsFalsy p.uid = false →
      resolveMediaRole p.role = some r → p.tokentype = some "uid" →
      (generateRTCToken env p expiry now).calls =
        [SignCall.rtcUid env.appId env.appCertificate (p.channel.getD "")
          (.str (p.uid.getD "")) r
          ((computeExpireTime expiry).map (fun t => now + t))]) ∧
    (∀ env p expiry now r, jsFalsy p.channel = false → jsFalsy p.uid = false →
      resolveMediaRole p.role = some r →
      p.tokentype ≠ some "userAccount" → p.tokentype ≠ some "uid" →
      generateRTCToken env p expiry now =
        ⟨[], .error 400 "token type is invalid"⟩) := by
  refine ⟨?_, ?_, ?_⟩ <;>
    · intro env p expiry now r h1 h2 hr h4
      first
      | (intro h5; simp [generateRTCToken, h1, h2, hr, h4, h5])
      | simp [generateRTCToken, h1, h2, hr, h4]

theorem C5_tokentype_selects_entry_point_witness :
    (generateRTCToken ⟨some "id", some "cert"⟩
        ⟨some "room", some "publisher", some "userAccount", some "7"⟩ none 0).calls =
      [SignCall.rtcAccount (some "id") (some "cert") "room" "7" Role.publisher
        (some 3600)] ∧
    (generateRTCToken ⟨some "id", some "cert"⟩
        ⟨some "room", some "publisher", some "uid", some "7"⟩ none 0).calls =
      [SignCall.rtcUid (some "id") (some "cert") "room" (.str "7") Role.publisher
        (some 3600)] ∧
    generateRTCToken ⟨some "id", some "cert"⟩
        ⟨some "room", some "publisher", some "wrong", some "7"⟩ none 0 =
      ⟨[], .error 400 "token type is invalid"⟩ := by
  have h := C5_tokentype_selects_entry_point
  refine ⟨?_, ?_, ?_⟩
  · have := h.1 ⟨some "id", some "cert"⟩
      ⟨some "room", some "publisher", some "userAccount", some "7"⟩ none 0
      Role.publisher (by decide) (by decide) (by decide) rfl
    simpa using this
  · have := h.2.1 ⟨some "id", some "cert"⟩
      ⟨some "room", some "publisher", some "uid", some "7"⟩ none 0
      Role.publisher (by decide) (by decide) (by decide) rfl
    simpa using this
  · exact h.2.2 ⟨some "id", some "cert"⟩
      ⟨some "room", some "publisher", some "wrong", some "7"⟩ none 0
      Role.publisher (by decide) (by decide) (by decide) (by decide) (by decide)

/-- Claim C6: "publisher" maps to the Publisher role and "audience" to the
Subscriber role; any other raw role string, with non-empty channel and uid,
makes media composition fail with the invalid-role error and no Signer
call. -/
theorem C6_media_role_mapping :
    resolveMediaRole (some "publisher") = some Role.publisher ∧
    resolveMediaRole (some "audience") = some Role.subscriber ∧
    (∀ env p expiry now, jsFalsy p.channel = false → jsFalsy p.uid = false →
      p.role ≠ some "publisher" → p.role ≠ some "audience" →
      generateRTCToken env p expiry now = ⟨[], .error 400 "role is incorrect"⟩) := by
  refine ⟨by decide, by decide, ?_⟩
  intro env p expiry now h1 h2 h3 h4
  have hr : resolveMediaRole p.role = none := by
    simp [resolveMediaRole, h3, h4]
  simp [generateRTCToken, h1, h2, hr]

theorem C6_media_role_mapping_witness :
    generateRTCToken ⟨some "id", some "cert"⟩
        ⟨some "room", some "moderator", some "uid", some "42"⟩ none 0 =
      ⟨[], .error 400 "role is incorrect"⟩ :=
  C6_media_role_mapping.2.2 ⟨some "id", some "cert"⟩
    ⟨some "room", some "moderator", some "uid", some "42"⟩ none 0
    (by decide) (by decide) (by decide) (by decide)

/-- Claim C7: media validation follows the fixed order channel, uid, role,
token type: whenever the spec-side first-violated-precondition function
yields an error message, the handler returns exactly that 400 error and
makes no Signer call. -/
theorem C7_first_error_wins (env : Env) (p : Params) (expiry : JsStr)
    (now : Int) (msg : String) (h : specFirstMediaError p = some msg) :
    generateRTCToken env p expiry now = ⟨[], .error 400 msg⟩ := by
  unfold specFirstMediaError at h
  unfold generateRTCToken
  by_cases h1 : jsFalsy p.channel = true
  · simp [h1] at h ⊢
    simp [h]
  · by_cases h2 : jsFalsy p.uid = true
    · simp [h1, h2] at h ⊢
      simp [h]
    · cases hr : resolveMediaRole p.role with
      | none =>
        simp [h1, h2, hr] at h ⊢
        simp [h]
      | some r =>
        by_cases h4 : p.tokentype = some "userAccount"
        · simp [h1, h2, hr, h4] at h
        · by_cases h5 : p.tokentype = some "uid"
          · simp [h1, h2, hr, h4, h5] at h
          · simp [h1, h2, hr, h4, h5] at h ⊢
            simp [h]

theorem C7_first_error_wins_witness :
    generateRTCToken ⟨some "id", some "cert"⟩
        ⟨some "", some "moderator", some "wrong", none⟩ none 0 =
      ⟨[], .error 400 "channel is required"⟩ :=
  C7_first_error_wins ⟨some "id", some "cert"⟩
    ⟨some "", some "moderator", some "wrong", none⟩ none 0
    "channel is required" (by decide)

/-- Claim C9: combined composition ignores the tokentype route parameter
entirely (so it can never fail with the invalid-token-type error), and for
every combined request with valid channel, uid and role the RTC half is
signed via the sign-by-uid entry point. -/
theorem C9_combined_ignores_tokentype :
    (∀ (env : Env) (p : Params) (expiry : JsStr) (now : Int) (tt1 tt2 : JsStr),
      generateRTEToken env { p with tokentype := tt1 } expiry now =
        generateRTEToken env { p with tokentype := tt2 } expiry now) ∧
    (∀ env p expiry now r, jsFalsy p.channel = false → jsFalsy p.uid = false →
      resolveMediaRole p.role = some r →
      (generateRTEToken env p expiry now).calls =
        [SignCall.rtcUid env.appId env.appCertificate (p.channel.getD "")
          (.str (p.uid.getD "")) r
          ((computeExpireTime expiry).map (fun t => now + t)),
         SignCall.rtm env.appId env.appCertificate (p.uid.getD "") r
          ((computeExpireTime expiry).map (fun t => now + t))]) := by
  constructor
  · intro env p expiry now tt1 tt2
    rfl
  · intro env p expiry now r h1 h2 hr
    simp [generateRTEToken, h1, h2, hr]

theorem C9_combined_ignores_tokentype_witness :
    generateRTEToken ⟨some "id", some "cert"⟩
        ⟨some "room", some "publisher", some "garbage", some "7"⟩ none 0 =
      generateRTEToken ⟨some "id", some "cert"⟩
        ⟨some "room", some "publisher", some "uid", some "7"⟩ none 0 ∧
    (generateRTEToken ⟨some "id", some "cert"⟩
        ⟨some "room", some "publisher", some "garbage", some "7"⟩ none 0).calls =
      [SignCall.rtcUid (some "id") (some "cert") "room" (.str "7")
        Role.publisher (some 3600),
       SignCall.rtm (some "id") (some "cert") "7" Role.publisher (some 3600)] := by
  have h := C9_combined_ignores_tokentype
  constructor
  · exact h.1 ⟨some "id", some "cert"⟩
      ⟨some "room", some "publisher", some "x", some "7"⟩ none 0
      (some "garbage") (some "uid")
  · have := h.2 ⟨some "id", some "cert"⟩
      ⟨some "room", some "publisher", some "garbage", some "7"⟩ none 0
      Role.publisher (by decide) (by decide) (by decide)
    simpa using this

/-- Claim C10: the secondary /rtcToken endpoint issues a media token even
without a uid: with a truthy channelName, a falsy uid and configured
credentials it signs by uid with uid defaulted to the number 0, the role
fixed to Publisher and a fixed 3600-second ttl; there is no
missing-subject failure path. -/
theorem C10_default_uid (env : Env) (q : RtcTokenQuery) (now : Int)
    (hch : jsFalsy q.channelName = false) (huid : jsFalsy q.uid = true)
    (hid : jsFalsy env.appId = false)
    (hcert : jsFalsy env.appCertificate = false) :
    rtcTokenHandler env q now =
      ⟨[SignCall.rtcUid env.appId env.appCertificate (q.channelName.getD "")
          (.num 0) Role.publisher (some (now + 3600))],
       .tokenJson (SignCall.rtcUid env.appId env.appCertificate
          (q.channelName.getD "") (.num 0) Role.publisher
          (some (now + 3600)))⟩ := by
  simp [rtcTokenHandler, hch, huid, hid, hcert]

theorem C10_default_uid_witness :
    rtcTokenHandler ⟨some "id", some "cert"⟩ ⟨some "room", none⟩ 1000 =
      ⟨[SignCall.rtcUid (some "id") (some "cert") "room" (.num 0)
          Role.publisher (some 4600)],
       .tokenJson (SignCall.rtcUid (some "id") (some "cert") "room" (.num 0)
          Role.publisher (some 4600))⟩ := by
  have := C10_default_uid ⟨some "id", some "cert"⟩ ⟨some "room", none⟩ 1000
    (by decide) (by decide) (by decide) (by decide)
  simpa using this

/-- Claim C1 counterexample: in combined issuance with raw role
"audience", the messaging Signer entry point receives the resolved media
role Subscriber, not the fixed MessagingUser role, so the claim as stated
is false. -/
theorem C1_counterexample :
    (generateRTEToken ⟨some "id", some "cert"⟩
        ⟨some "room", some "audience", some "uid", some "7"⟩ none 1000).calls =
      [SignCall.rtcUid (some "id") (some "cert") "room" (.str "7")
        Role.subscriber (some 4600),
       SignCall.rtm (some "id") (some "cert") "7" Role.subscriber (some 4600)] ∧
    Role.subscriber ≠ Role.rtmUser := by
  exact ⟨by decide, by decide⟩

/-- Claim C1 amended: standalone messaging issuance always passes the fixed
MessagingUser role to the messaging Signer entry point, but the messaging
half of combined issuance passes the resolved media role instead. -/
theorem C1_messaging_role :
    (∀ env uid expiry now c, c ∈ (generateRTMToken env uid expiry now).calls →
      SignCall.roleOf c = Role.rtmUser) ∧
    (∀ env p expiry now r c, resolveMediaRole p.role = some r →
      c ∈ (generateRTEToken env p expiry now).calls →
      SignCall.roleOf c = r) := by
  constructor
  · intro env uid expiry now c hc
    unfold generateRTMToken at hc
    by_cases h1 : jsFalsy uid = true
    · simp [h1] at hc
    · simp [h1] at hc
      subst hc
      rfl
  · intro env p expiry now r c hr hc
    unfold generateRTEToken at hc
    by_cases h1 : jsFalsy p.channel = true
    · simp [h1] at hc
    · by_cases h2 : jsFalsy p.uid = true
      · simp [h1, h2] at hc
      · simp [h1, h2, hr] at hc
        rcases hc with hc | hc <;> subst hc <;> rfl

theorem C1_messaging_role_witness :
    SignCall.roleOf (SignCall.rtm none none "u" Role.rtmUser (some 3600)) =
      Role.rtmUser ∧
    SignCall.roleOf (SignCall.rtm none none "7" Role.subscriber (some 3600)) =
      Role.subscriber := by
  have h := C1_messaging_role
  refine ⟨h.1 ⟨none, none⟩ (some "u") none 0 _ ?_,
    h.2 ⟨none, none⟩ ⟨some "room", some "audience", some "uid", some "7"⟩
      none 0 Role.subscriber _ (by decide) ?_⟩
  · show SignCall.rtm none none "u" Role.rtmUser (some 3600) ∈
      (generateRTMToken ⟨none, none⟩ (some "u") none 0).calls
    decide
  · show SignCall.rtm none none "7" Role.subscriber (some 3600) ∈
      (generateRTEToken ⟨none, none⟩
        ⟨some "room", some "audience", some "uid", some "7"⟩ none 0).calls
    decide

/-- Claim C2 counterexample: with no credential configured, the media
handler of index.js still invokes the Signer on a valid request and
reports no server-side configuration error, so the claim as stated is
false. -/
theorem C2_counterexample :
    (generateRTCToken ⟨none, none⟩
        ⟨some "room", some "publisher", some "uid", some "7"⟩ none 1000).calls =
      [SignCall.rtcUid none none "room" (.str "7") Role.publisher
        (some 4600)] ∧
    ((generateRTCToken ⟨none, none⟩
        ⟨some "room", some "publisher", some "uid", some "7"⟩
        none 1000).response).isServerError = false := by
  exact ⟨by decide, by decide⟩

/-- Claim C2 amended: only the secondary /rtcToken endpoint checks the
process-wide credential, returning a 500 configuration error before any
Signer call when either credential is falsy; the three index.js handlers
never report a server-side configuration error and call the Signer
regardless of credential configuration. -/
theorem C2_credential_check :
    (∀ env p expiry now,
      ((generateRTCToken env p expiry now).response).isServerError = false) ∧
    (∀ env uid expiry now,
      ((generateRTMToken env uid expiry now).response).isServerError = false) ∧
    (∀ env p expiry now,
      ((generateRTEToken env p expiry now).response).isServerError = false) ∧
    (∀ env q now, (jsFalsy env.appId || jsFalsy env.appCertificate) = true →
      jsFalsy q.channelName = false →
      rtcTokenHandler env q now =
        ⟨[], .error 500 "APP_ID or APP_CERTIFICATE missing"⟩) := by
  refine ⟨?_, ?_, ?_, ?_⟩
  · intro env p expiry now
    unfold generateRTCToken
    repeat first | rfl | split
  · intro env uid expiry now
    unfold generateRTMToken
    repeat first | rfl | split
  · intro env p expiry now
    unfold generateRTEToken
    repeat first | rfl | split
  · intro env q now h1 h2
    simp [rtcTokenHandler, h1, h2]

theorem C2_credential_check_witness :
    ((generateRTCToken ⟨none, none⟩
        ⟨some "room", some "publisher", some "uid", some "7"⟩
        none 0).response).isServerError = false ∧
    rtcTokenHandler ⟨none, none⟩ ⟨some "room", some "7"⟩ 0 =
      ⟨[], .error 500 "APP_ID or APP_CERTIFICATE missing"⟩ := by
  have h := C2_credential_check
  exact ⟨h.1 ⟨none, none⟩ ⟨some "room", some "publisher", some "uid", some "7"⟩
      none 0,
    h.2.2.2 ⟨none, none⟩ ⟨some "room", some "7"⟩ 0 (by decide) (by decide)⟩

/-- Claim C3 counterexample: a non-empty ttl string with no leading digits
is not defaulted to 3600: parseInt yields NaN and the privilege expire time
passed to the Signer is NaN, not issuedAt + 3600, so the claim as stated is
false. -/
theorem C3_counterexample :
    (generateRTMToken ⟨some "id", some "cert"⟩ (some "u") (some "abc")
        1000).calls =
      [SignCall.rtm (some "id") (some "cert") "u" Role.rtmUser none] ∧
    (none : Option Int) ≠ some (1000 + 3600) := by
  exact ⟨by decide, by decide⟩

/-- Claim C3 amended: an omitted or empty ttl defaults to 3600, so the
expiry equals issuedAt + 3600; but a non-empty ttl string that parseInt
cannot parse yields NaN rather than the default. -/
theorem C3_ttl_default :
    (∀ expiry, jsFalsy expiry = true → computeExpireTime expiry = some 3600) ∧
    (∀ env uid expiry now, jsFalsy uid = false → jsFalsy expiry = true →
      (generateRTMToken env uid expiry now).calls.map SignCall.petOf =
        [some (now + 3600)]) ∧
    (∀ s : String, s ≠ "" → parseIntJS s = none →
      computeExpireTime (some s) = none) := by
  refine ⟨?_, ?_, ?_⟩
  · intro expiry h
    simp [computeExpireTime, h]
  · intro env uid expiry now h1 h2
    simp [generateRTMToken, h1, SignCall.petOf, computeExpireTime, h2]
  · intro s h hp
    simp [computeExpireTime, jsFalsy, h, hp]

theorem C3_ttl_default_witness :
    computeExpireTime none = some 3600 ∧
    (generateRTMToken ⟨some "id", some "cert"⟩ (some "u") (some "") 5).calls.map
      SignCall.petOf = [some 3605] ∧
    computeExpireTime (some "abc") = none := by
  have h := C3_ttl_default
  refine ⟨h.1 none (by decide), ?_, h.2.2 "abc" (by decide) (by decide)⟩
  have := h.2.1 ⟨some "id", some "cert"⟩ (some "u") (some "") 5
    (by decide) (by decide)
  simpa using this

/-- Claim C8 counterexample: a caller-supplied ttl of "0" is accepted: the
token is composed with expiresAt = issuedAt + 0, so the invariant ttl > 0
of the claim as stated is false. -/
theorem C8_counterexample :
    generateRTCToken ⟨some "id", some "cert"⟩
        ⟨some "room", some "publisher", some "uid", some "7"⟩ (some "0") 1000 =
      ⟨[SignCall.rtcUid (some "id") (some "cert") "room" (.str "7")
          Role.publisher (some 1000)],
       .rtcJson (SignCall.rtcUid (some "id") (some "cert") "room" (.str "7")
          Role.publisher (some 1000))⟩ ∧
    computeExpireTime (some "0") = some 0 ∧ ¬(0 < (0 : Int)) := by
  exact ⟨by decide, by decide, by decide⟩

/-- Claim C8 amended: every Signer invocation made by the three index.js
handlers carries the privilege expire time issuedAt + ttl, where ttl is the
parsed caller-supplied value or the 3600-second default; no positivity of
ttl is enforced, so ttl may be zero, negative, or NaN. -/
theorem C8_privilege_window :
    (∀ env p expiry now c, c ∈ (generateRTCToken env p expiry now).calls →
      SignCall.petOf c = (computeExpireTime expiry).map (fun t => now + t)) ∧
    (∀ env uid expiry now c, c ∈ (generateRTMToken env uid expiry now).calls →
      SignCall.petOf c = (computeExpireTime expiry).map (fun t => now + t)) ∧
    (∀ env p expiry now c, c ∈ (generateRTEToken env p expiry now).calls →
      SignCall.petOf c = (computeExpireTime expiry).map (fun t => now + t)) := by
  refine ⟨?_, ?_, ?_⟩
  · intro env p expiry now c hc
    unfold generateRTCToken at hc
    by_cases h1 : jsFalsy p.channel = true
    · simp [h1] at hc
    · by_cases h2 : jsFalsy p.uid = true
      · simp [h1, h2] at hc
      · cases hr : resolveMediaRole p.role with
        | none => simp [h1, h2, hr] at hc
        | some r =>
          by_cases h4 : p.tokentype = some "userAccount"
          · simp [h1, h2, hr, h4] at hc
            subst hc; rfl
          · by_cases h5 : p.tokentype = some "uid"
            · simp [h1, h2, hr, h4, h5] at hc
              subst hc; rfl
            · simp [h1, h2, hr, h4, h5] at hc
  · intro env uid expiry now c hc
    unfold generateRTMToken at hc
    by_cases h1 : jsFalsy uid = true
    · simp [h1] at hc
    · simp [h1] at hc
      subst hc; rfl
  · intro env p expiry now c hc
    unfold generateRTEToken at hc
    by_cases h1 : jsFalsy p.channel = true
    · simp [h1] at hc
    · by_cases h2 : jsFalsy p.uid = true
      · simp [h1, h2] at hc
      · cases hr : resolveMediaRole p.role with
        | none => simp [h1, h2, hr] at hc
        | some r =>
          simp [h1, h2, hr] at hc
          rcases hc with hc | hc <;> subst hc <;> rfl

theorem C8_privilege_window_witness :
    SignCall.petOf (SignCall.rtcUid (some "id") (some "cert") "room"
        (.str "7") Role.publisher (some 1000)) =
      (computeExpireTime (some "0")).map (fun t => (1000 : Int) + t) ∧
    SignCall.petOf (SignCall.rtm (some "id") (some "cert") "u" Role.rtmUser
        (some 3600)) =
      (computeExpireTime none).map (fun t => (0 : Int) + t) ∧
    SignCall.petOf (SignCall.rtm (some "id") (some "cert") "7"
        Role.publisher (some 3600)) =
      (computeExpireTime none).map (fun t => (0 : Int) + t) := by
  have h := C8_privilege_window
  refine ⟨h.1 ⟨some "id", some "cert"⟩
      ⟨some "room", some "publisher", some "uid", some "7"⟩ (some "0") 1000 _
      (by decide),
    h.2.1 ⟨some "id", some "cert"⟩ (some "u") none 0 _ (by decide),
    h.2.2 ⟨some "id", some "cert"⟩
      ⟨some "room", some "publisher", some "uid", some "7"⟩ none 0 _
      (by decide)⟩
